import Mathlib

/-!
# Servo ground-control server: verification of spec claims

A shallow embedding of the parts of the `servo` ground-control server that
the specification's claims are about, together with theorems settling each
claim.  Pure Rust functions become Lean functions; stateful handlers become
explicit state-passing functions over the relevant tables and shared state;
`f64` values are modelled as `Rat`; fallible operations return
`Except`/`Option`.  Definitions are translated from the Rust source files
(`src/server/flight.rs`, `src/server/routes/*.rs`, `src/routes/mappings.rs`,
`src/database.rs`); names follow the source.
-/

namespace Servo

/-! ## Common data model (`common::comm`)

The `common` crate is an external dependency; the shapes below follow the
specification's data model (§3): sensor readings, valve states and update
times keyed by text id.  Maps are modelled as association lists with unique
keys; `f64` is modelled as `Rat`. -/

/-- A sensor unit, per the spec's `enum{Psi,Amps,Volts,Kelvin,…}`. -/
inductive SensorUnit
  | psi
  | amps
  | volts
  | kelvin
  deriving DecidableEq, Repr

/-- A sensor measurement: value plus unit. -/
structure Measurement where
  value : Rat
  unit : SensorUnit
  deriving DecidableEq, Repr

/-- One valve-state tag, per the spec's
`{Undetermined, Disconnected, Open, Closed, CommandedOpen, CommandedClosed, Fault}`. -/
inductive ValveStateTag
  | undetermined
  | disconnected
  | vOpen
  | vClosed
  | commandedOpen
  | commandedClosed
  | fault
  deriving DecidableEq, Repr

/-- A composite valve state: commanded and actual tags. -/
structure CompositeValveState where
  commanded : ValveStateTag
  actual : ValveStateTag
  deriving DecidableEq, Repr

/-- The live vehicle state: readings and valve states keyed by text id. -/
structure VehicleState where
  sensor_readings : List (String × Measurement)
  valve_states : List (String × CompositeValveState)
  update_times : List (String × Rat)
  deriving DecidableEq, Repr

/-- A named operator script (`common::comm::Sequence`). -/
structure Sequence where
  name : String
  script : String
  deriving DecidableEq, Repr

/-- HTTP status classes used by the route handlers. -/
inductive HttpStatus
  | ok
  | badRequest
  | internalServerError
  | notFound
  deriving DecidableEq, Repr

/-! ## C2 — flight-link accept loop (`src/server/flight.rs`, `auto_connect`)

The accept loop holds `Arc<(Mutex<Option<FlightComputer>>, Notify)>`.  On
accepting a TCP stream it locks the slot; if the slot is `None` it installs
a new `FlightComputer` session wrapping the stream and spawns the telemetry
receiver; otherwise it shuts the new stream down.  One iteration of the
loop body is modelled as a function of the slot and the accepted stream. -/

/-- A TCP stream, identified by a tag, recording whether `shutdown` was called. -/
structure TcpStream where
  id : Nat
  isShutdown : Bool
  deriving DecidableEq, Repr

/-- A held flight-computer session: the stream it owns and whether the
telemetry receiver task was spawned for it. -/
structure FlightSession where
  stream : TcpStream
  receiverSpawned : Bool
  deriving DecidableEq, Repr

/-- One iteration of `FlightComputer::auto_connect`'s accept loop: given the
current contents of the shared slot and the freshly accepted stream, return
the new slot contents and the accepted stream (possibly shut down). -/
def auto_connect_accept (slot : Option FlightSession) (stream : TcpStream) :
    Option FlightSession × TcpStream :=
  match slot with
  | none => (some { stream := stream, receiverSpawned := true }, stream)
  | some s => (some s, { stream with isShutdown := true })

/-- Number of sessions held in the slot. -/
def sessionCount (slot : Option FlightSession) : Nat :=
  slot.elim 0 fun _ => 1

/-! ## C8 — operator command dispatch (`src/server/routes/command.rs`)

`dispatch_operator_command` first locks the flight slot: if no flight
computer is connected it returns an internal server error.  Otherwise it
matches the command string; only `"click_valve"` is recognized, requiring a
`target` and a `state` of `"open"` or `"closed"`, and sends the synthetic
sequence `{name: "command", script: "<target>.open()"/"<target>.close()"}`.
The model returns the status class and the sequence sent, if any. -/

/-- Body of `/operator/command` requests. -/
structure OperatorCommandRequest where
  command : String
  target : Option String
  state : Option String
  deriving DecidableEq, Repr

/-- `dispatch_operator_command`, modelled as a function of whether the
flight slot is occupied and the request body.  Returns the response status
and the `Sequence` written to the command channel, if any. -/
def dispatch_operator_command (flightConnected : Bool)
    (r : OperatorCommandRequest) : HttpStatus × Option Sequence :=
  if flightConnected then
    if r.command = "click_valve" then
      match r.target with
      | none => (.badRequest, none)
      | some target =>
        match r.state with
        | none => (.badRequest, none)
        | some st =>
          if st = "open" then
            (.ok, some ⟨"command", target ++ ".open()"⟩)
          else if st = "closed" then
            (.ok, some ⟨"command", target ++ ".close()"⟩)
          else (.badRequest, none)
    else (.badRequest, none)
  else (.internalServerError, none)

/-- A request body is invalid when the command is unrecognized, a required
field is missing, or the state is neither `"open"` nor `"closed"`. -/
def badCommandInput (r : OperatorCommandRequest) : Prop :=
  r.command ≠ "click_valve" ∨
    (r.target = none ∨ r.state = none ∨
      (r.state ≠ some "open" ∧ r.state ≠ some "closed"))

instance (r : OperatorCommandRequest) : Decidable (badCommandInput r) := by
  unfold badCommandInput; infer_instance

/-! ### Theorems for C2 -/

/-- **C2**: the flight-session slot always holds 0 or 1 sessions; when the
accept loop receives a new connection while the slot is occupied, the new
stream is shut down and the held session is unchanged; when the slot is
empty, the new stream is installed as the active flight session with its
receiver spawned. -/
theorem flight_slot_at_most_one (slot : Option FlightSession) (stream : TcpStream) :
    sessionCount (auto_connect_accept slot stream).1 ≤ 1 ∧
    (∀ s, slot = some s →
      auto_connect_accept slot stream =
        (some s, { stream with isShutdown := true })) ∧
    (slot = none →
      auto_connect_accept slot stream =
        (some { stream := stream, receiverSpawned := true }, stream)) := by
  refine ⟨?_, ?_, ?_⟩
  · cases slot <;> simp [auto_connect_accept, sessionCount]
  · intro s hs
    subst hs
    simp [auto_connect_accept]
  · intro hs
    subst hs
    simp [auto_connect_accept]

/-- Witness for C2 at a concrete occupied slot and a concrete empty slot. -/
theorem flight_slot_at_most_one_witness :
    auto_connect_accept (some ⟨⟨0, false⟩, true⟩) ⟨1, false⟩ =
      (some ⟨⟨0, false⟩, true⟩, ⟨1, true⟩) ∧
    auto_connect_accept none ⟨2, false⟩ = (some ⟨⟨2, false⟩, true⟩, ⟨2, false⟩) :=
  ⟨((flight_slot_at_most_one (some ⟨⟨0, false⟩, true⟩) ⟨1, false⟩).2.1 _ rfl),
    ((flight_slot_at_most_one none ⟨2, false⟩).2.2 rfl)⟩

/-! ### Theorems for C8

The claim reads: bad input returns `BadRequest`, and flight-not-connected
returns `InternalServerError`.  The source checks the flight slot *before*
validating the request, so a request that is both invalid and made while the
flight computer is disconnected returns `InternalServerError`, not
`BadRequest`: the universal `BadRequest` clause of the claim fails there. -/

/-- **C8 counterexample**: with the flight computer not connected, the
unrecognized command `"bogus"` yields `InternalServerError`, not
`BadRequest` — refuting the claim that every request with an unrecognized
command returns `BadRequest`. -/
theorem dispatch_bad_input_counterexample :
    (dispatch_operator_command false ⟨"bogus", none, none⟩).1 =
      HttpStatus.internalServerError ∧
    (dispatch_operator_command false ⟨"bogus", none, none⟩).1 ≠
      HttpStatus.badRequest := by
  constructor
  · rfl
  · intro h
    simp [dispatch_operator_command] at h

/-- **C8 (amended)**: when the flight computer is connected, a request whose
command is unrecognized, whose required field (target, state) is missing, or
whose state is not `"open"`/`"closed"` returns `BadRequest`; when the flight
computer is not connected the handler returns `InternalServerError`
regardless of the request. -/
theorem dispatch_operator_command_statuses (conn : Bool) (r : OperatorCommandRequest) :
    (conn = true → badCommandInput r →
      (dispatch_operator_command conn r).1 = HttpStatus.badRequest) ∧
    (conn = false →
      (dispatch_operator_command conn r).1 = HttpStatus.internalServerError) := by
  constructor
  · rintro rfl hbad
    by_cases hc : r.command = "click_valve"
    · rcases hbad with hcmd | htgt | hst | hopen
      · exact absurd hc hcmd
      · simp [dispatch_operator_command, hc, htgt]
      · cases htarget : r.target with
        | none => simp [dispatch_operator_command, hc, htarget]
        | some t => simp [dispatch_operator_command, hc, htarget, hst]
      · cases htarget : r.target with
        | none => simp [dispatch_operator_command, hc, htarget]
        | some t =>
          cases hstate : r.state with
          | none => simp [dispatch_operator_command, hc, htarget, hstate]
          | some st =>
            rw [hstate] at hopen
            have h1 : st ≠ "open" := by
              intro h; exact hopen.1 (by rw [h])
            have h2 : st ≠ "closed" := by
              intro h; exact hopen.2 (by rw [h])
            simp [dispatch_operator_command, hc, htarget, hstate, h1, h2]
    · simp [dispatch_operator_command, hc]
  · rintro rfl
    simp [dispatch_operator_command]

/-- Witness for C8 (amended): a concrete invalid request while connected
gets `BadRequest`, and a concrete request while disconnected gets
`InternalServerError`. -/
theorem dispatch_operator_command_statuses_witness :
    (dispatch_operator_command true ⟨"bogus", none, none⟩).1 = HttpStatus.badRequest ∧
    (dispatch_operator_command false ⟨"click_valve", some "BBV", some "open"⟩).1 =
      HttpStatus.internalServerError :=
  ⟨(dispatch_operator_command_statuses true ⟨"bogus", none, none⟩).1 rfl
      (Or.inl (by decide)),
    (dispatch_operator_command_statuses false
      ⟨"click_valve", some "BBV", some "open"⟩).2 rfl⟩

/-! ## NodeMappings table (`src/routes/mappings.rs`)

A row of the `NodeMappings` table, per the schema
`NodeMappings(configuration_id, text_id, board_id, channel_type, channel,
computer, max, min, calibrated_offset, connected_threshold,
powered_threshold, normally_closed, active)`.  `calibrated_offset` is kept
as a dynamically typed SQLite value because the calibrate route (due to its
swapped parameters) stores a TEXT value into this REAL column; SQLite
columns accept values of any storage class. -/

/-- A SQLite storage value (restricted to the classes this model needs). -/
inductive SqlValue
  | real (q : Rat)
  | text (s : String)
  deriving DecidableEq, Repr

/-- Channel types of a node mapping. -/
inductive ChannelType
  | gpio
  | led
  | rail_3v3
  | rail_5v
  | rail_5v5
  | rail_24v
  | current_loop
  | differential_signal
  | tc
  | valve_current
  | valve_voltage
  | rtd
  | valve
  deriving DecidableEq, Repr

/-- Which computer a mapping belongs to. -/
inductive Computer
  | flight
  | ground
  deriving DecidableEq, Repr

/-- One row of the `NodeMappings` table. -/
structure NodeMappingRow where
  configuration_id : String
  text_id : String
  board_id : Nat
  channel_type : ChannelType
  channel : Nat
  computer : Computer
  max : Option Rat
  min : Option Rat
  calibrated_offset : Option SqlValue
  connected_threshold : Option Rat
  powered_threshold : Option Rat
  normally_closed : Option Bool
  active : Bool
  deriving DecidableEq, Repr

/-! ## C10 — `activate_configuration` (`src/routes/mappings.rs`)

The handler first executes `UPDATE NodeMappings SET active = FALSE WHERE
active = TRUE`, then `UPDATE NodeMappings SET active = TRUE WHERE
configuration_id = ?1`, and only then branches on the number of rows the
second update touched: positive means push mappings and return 200, zero
means return `BadRequest` (with no push).  The deactivation is never rolled
back. -/

/-- `activate_configuration`: returns the table after both UPDATEs, the
response status, and whether the active mapping set was pushed to the
flight computer. -/
def activate_configuration (table : List NodeMappingRow) (cid : String) :
    List NodeMappingRow × HttpStatus × Bool :=
  let deactivated := table.map fun r =>
    if r.active then { r with active := false } else r
  let rows_updated :=
    (deactivated.filter fun r => r.configuration_id == cid).length
  let activated := deactivated.map fun r =>
    if r.configuration_id == cid then { r with active := true } else r
  if rows_updated > 0 then (activated, .ok, true)
  else (activated, .badRequest, false)

/-! ## C1 — `calibrate` (`src/routes/mappings.rs`)

The handler selects the `text_id`s of all active mappings whose channel
type is `current_loop` or `differential_signal`; then, for each such sensor
that has a live reading in the vehicle state, it executes

  `UPDATE NodeMappings SET calibrated_offset = ?1 WHERE text_id = ?2`

with `params![sensor, measurement.value]` — i.e. parameter 1 is the sensor
*name* and parameter 2 is the *reading value*, the reverse of what the SQL
expects.  SQLite stores the TEXT name into `calibrated_offset` on any row
whose `text_id` equals the REAL value under TEXT affinity (the REAL is
rendered as text before the comparison).  The handler then records
`(sensor, value)` in the response map regardless. -/

/-- SQLite's TEXT rendering of a REAL value, applied when a REAL parameter
is compared against a TEXT-affinity column (`text_id`).  Integral values
render with a trailing `.0`, as SQLite does; non-integral values are given
a rendering that is irrelevant to the claims (never equal to a sensor id in
the inputs considered). -/
def sqlRealToText (q : Rat) : String :=
  if q.den = 1 then toString q.num ++ ".0"
  else toString q.num ++ "e" ++ toString q.den

/-- SQLite equality between a TEXT-affinity column value and a parameter. -/
def sqlValueEqText (s : String) : SqlValue → Bool
  | .text t => s == t
  | .real q => s == sqlRealToText q

/-- One execution of the calibrate UPDATE with bound parameters `p1`
(stored into `calibrated_offset`) and `p2` (compared against `text_id`). -/
def calibrateUpdate (table : List NodeMappingRow) (p1 p2 : SqlValue) :
    List NodeMappingRow :=
  table.map fun r =>
    if sqlValueEqText r.text_id p2 then { r with calibrated_offset := some p1 }
    else r

/-- The `calibrate` route handler: returns the table after all UPDATEs and
the map (as an association list) of updated sensor → reported offset. -/
def calibrate (table : List NodeMappingRow) (vs : VehicleState) :
    List NodeMappingRow × List (String × Rat) :=
  let to_calibrate := (table.filter fun r =>
    (r.channel_type == .current_loop || r.channel_type == .differential_signal)
      && r.active).map (·.text_id)
  to_calibrate.foldl
    (fun acc sensor =>
      match vs.sensor_readings.lookup sensor with
      | some m =>
          (calibrateUpdate acc.1 (.text sensor) (.real m.value),
            acc.2 ++ [(sensor, m.value)])
      | none => acc)
    (table, [])

/-! ### Theorems for C10 -/

/-- **C10**: activating a `configuration_id` that matches zero rows of
`NodeMappings` returns `BadRequest`, pushes nothing, and leaves no row with
`active = TRUE`: the previously active configuration is deactivated even
though the request failed. -/
theorem activate_configuration_unknown_id (table : List NodeMappingRow) (cid : String)
    (h : ∀ r ∈ table, r.configuration_id ≠ cid) :
    (activate_configuration table cid).2.1 = HttpStatus.badRequest ∧
    (activate_configuration table cid).2.2 = false ∧
    ∀ r ∈ (activate_configuration table cid).1, r.active = false := by
  have hdeact : ∀ r ∈ table.map (fun r =>
      if r.active then { r with active := false } else r),
      r.configuration_id ≠ cid ∧ r.active = false := by
    intro r hr
    obtain ⟨r0, hr0, rfl⟩ := List.mem_map.1 hr
    by_cases h0 : r0.active <;>
      simp only [h0, if_true, if_false] <;>
      exact ⟨h r0 hr0, by simp [h0]⟩
  have hfilter : ((table.map (fun r =>
      if r.active then { r with active := false } else r)).filter
        fun r => r.configuration_id == cid) = [] := by
    rw [List.filter_eq_nil_iff]
    intro r hr
    simpa using (hdeact r hr).1
  unfold activate_configuration
  simp only [hfilter, List.length_nil, gt_iff_lt, lt_self_iff_false, if_false]
  refine ⟨trivial, trivial, ?_⟩
  intro r hr
  obtain ⟨r1, hr1, rfl⟩ := List.mem_map.1 hr
  have h1 := hdeact r1 hr1
  have hne : (r1.configuration_id == cid) = false := by
    simpa using h1.1
  simp only [hne, if_false]
  exact h1.2

/-- Witness for C10: a table holding one active row of configuration
`"rig"`, activated with the unknown id `"ghost"`, ends with `BadRequest`,
no push, and the `"rig"` row deactivated. -/
theorem activate_configuration_unknown_id_witness :
    (activate_configuration
        [{ configuration_id := "rig", text_id := "BBV", board_id := 1,
           channel_type := .valve, channel := 3, computer := .flight,
           max := none, min := none, calibrated_offset := none,
           connected_threshold := none, powered_threshold := none,
           normally_closed := none, active := true }] "ghost").2.1 =
      HttpStatus.badRequest ∧
    (activate_configuration
        [{ configuration_id := "rig", text_id := "BBV", board_id := 1,
           channel_type := .valve, channel := 3, computer := .flight,
           max := none, min := none, calibrated_offset := none,
           connected_threshold := none, powered_threshold := none,
           normally_closed := none, active := true }] "ghost").2.2 = false ∧
    ∀ r ∈ (activate_configuration
        [{ configuration_id := "rig", text_id := "BBV", board_id := 1,
           channel_type := .valve, channel := 3, computer := .flight,
           max := none, min := none, calibrated_offset := none,
           connected_threshold := none, powered_threshold := none,
           normally_closed := none, active := true }] "ghost").1,
      r.active = false :=
  activate_configuration_unknown_id _ "ghost" (by decide)

/-! ### Theorems for C1

The claim states that each active `current_loop`/`differential_signal`
mapping with a live reading has its `calibrated_offset` set to the
reading's value.  The source swaps the UPDATE's parameters, so the value is
never written: the row is left unchanged (no row's `text_id` equals the
value's text rendering), while the handler still reports the sensor as
updated. -/

/-- A concrete active current-loop mapping for the C1 evaluation. -/
def fuelPtRow : NodeMappingRow :=
  { configuration_id := "rig", text_id := "fuel_pt", board_id := 1,
    channel_type := .current_loop, channel := 2, computer := .flight,
    max := none, min := none, calibrated_offset := none,
    connected_threshold := none, powered_threshold := none,
    normally_closed := none, active := true }

/-- A vehicle state with a live reading of 7 for `fuel_pt`. -/
def fuelPtState : VehicleState :=
  { sensor_readings := [("fuel_pt", ⟨7, .amps⟩)], valve_states := [],
    update_times := [] }

/-- **C1 (code bug)**: calibrating a table holding the single active
current-loop mapping `fuel_pt` while the vehicle state reads
`fuel_pt = 7` leaves the table *unchanged* — `calibrated_offset` stays
`none` rather than becoming `7` — while the handler still returns the map
`{fuel_pt ↦ 7}`.  The swapped UPDATE parameters write the sensor name into
`calibrated_offset` of rows whose `text_id` equals `"7.0"`, of which there
are none. -/
theorem calibrate_swapped_params :
    calibrate [fuelPtRow] fuelPtState = ([fuelPtRow], [("fuel_pt", 7)]) ∧
    (calibrate [fuelPtRow] fuelPtState).1.map (·.calibrated_offset) =
      [none] ∧
    fuelPtRow.calibrated_offset ≠ some (SqlValue.real 7) := by
  refine ⟨?_, ?_, ?_⟩ <;> decide

/-! ## C5 — `Database::migrate_to` (`src/database.rs`)

`migrate_to` reads `current = SELECT MAX(migration_id) FROM Migrations`
(an error when the table is empty), then:

* `current < target`: for each `migration in current+1..=target`, run that
  migration's `up.sql` and `INSERT` its id;
* `target < current`: for each `migration in (target..=current).rev()`, run
  that migration's `down.sql` and `DELETE` its id.

Script contents live in the migration directories (not under `src/`); the
model records which scripts run and the resulting `Migrations` table. -/

/-- The inclusive integer range `a..=b` as a list (empty when `b < a`),
mirroring Rust's `a..=b` iterator. -/
def intRangeIncl (a b : Int) : List Int :=
  (List.range (b + 1 - a).toNat).map fun i => a + i

/-- `Database::migrate_to`: from the current `Migrations` contents and a
target id, returns the new `Migrations` contents and the trace of scripts
applied — `(id, true)` for an `up.sql`, `(id, false)` for a `down.sql`, in
execution order.  Errors when `Migrations` is empty (`MAX` is NULL). -/
def migrate_to (recorded : List Int) (target : Int) :
    Except String (List Int × List (Int × Bool)) :=
  match recorded.max? with
  | none => .error "MAX(migration_id) is NULL"
  | some current =>
    if current < target then
      .ok (recorded ++ intRangeIncl (current + 1) target,
        (intRangeIncl (current + 1) target).map fun i => (i, true))
    else if target < current then
      let downs := (intRangeIncl target current).reverse
      .ok (recorded.filter fun i => !(downs.contains i),
        downs.map fun i => (i, false))
    else .ok (recorded, [])

/-! ## C6 — `Database::log_vehicle_state` (`src/database.rs`) -/

/-- Modelled from the spec: one row of the `VehicleSnapshots` table.  The
table's schema is defined by the repository's migration SQL files, which
are not under `src/`; per the spec (§3, §4.D) a snapshot row is
`(recorded_at : f64 seconds, vehicle_state : opaque bytes)`. -/
structure VehicleSnapshotRow where
  recorded_at : Rat
  vehicle_state : List Nat
  deriving DecidableEq, Repr

/-- Modelled from the spec: the effect of
`INSERT INTO VehicleSnapshots (vehicle_state) VALUES (?1)` at time `now` —
the row's `recorded_at` takes the current time in seconds (the column's
schema default), since the INSERT does not supply it. -/
def insertVehicleSnapshot (tbl : List VehicleSnapshotRow) (now : Rat)
    (bytes : List Nat) : List VehicleSnapshotRow :=
  tbl ++ [{ recorded_at := now, vehicle_state := bytes }]

/-- One iteration of `Database::log_vehicle_state`'s loop, entered when the
hub's notifier fires: if the weak reference to the connection upgrades, the
current hub state is serialized (`serialize` abstracts
`postcard::to_allocvec`, `none` on failure, in which case no row is
inserted) and appended as a snapshot at time `now`; otherwise the task
exits (`none`). -/
def log_vehicle_state_step (serialize : VehicleState → Option (List Nat))
    (upgradable : Bool) (now : Rat) (hub : VehicleState)
    (tbl : List VehicleSnapshotRow) : Option (List VehicleSnapshotRow) :=
  if upgradable then
    match serialize hub with
    | some bytes => some (insertVehicleSnapshot tbl now bytes)
    | none => some tbl
  else none

/-! ## C9 — `delete_sequence` (`src/server/routes/sequence.rs`)

The `Sequences` table is keyed by `name` (`save_sequence` inserts
`(name, configuration_id, script)`, `run_sequence` selects by `name`), but
`delete_sequence` executes `DELETE FROM Sequences WHERE text_id = ?1`:
`text_id` is not a column of `Sequences`, so SQLite rejects the statement
("no such column: text_id") and the handler returns the error (mapped with
`bad_request`) with nothing deleted. -/

/-- One row of the `Sequences` table
(`Sequences(name PK, configuration_id, script)`). -/
structure SequenceRow where
  name : String
  configuration_id : Option String
  script : String
  deriving DecidableEq, Repr

/-- The columns of the `Sequences` table. -/
def sequencesColumns : List String := ["name", "configuration_id", "script"]

/-- Projection of a `Sequences` row onto a column name; `none` when the
column does not exist in the schema. -/
def sequenceColumnValue (r : SequenceRow) : String → Option (Option String)
  | "name" => some (some r.name)
  | "configuration_id" => some r.configuration_id
  | "script" => some (some r.script)
  | _ => none

/-- Execute `DELETE FROM Sequences WHERE <col> = ?1`: SQLite rejects the
statement when `col` is not a column of the table; otherwise exactly the
rows whose `col` equals the parameter are removed. -/
def deleteSequencesWhere (tbl : List SequenceRow) (col : String)
    (param : String) : Except String (List SequenceRow) :=
  if col ∈ sequencesColumns then
    .ok (tbl.filter fun r => !(sequenceColumnValue r col == some (some param)))
  else .error ("no such column: " ++ col)

/-- The `delete_sequence` route handler: runs
`DELETE FROM Sequences WHERE text_id = ?1` with the request's `name`,
mapping a SQL error to `BadRequest`.  Returns the table afterwards and the
response status. -/
def delete_sequence (tbl : List SequenceRow) (name : String) :
    List SequenceRow × HttpStatus :=
  match deleteSequencesWhere tbl "text_id" name with
  | .ok t => (t, .ok)
  | .error _ => (tbl, .badRequest)

/-! ### Theorems for C5

The down-migration loop iterates `(target..=current).rev()`, which includes
`target` itself: migrating down from `c` to `t` runs the `down.sql` of
every id in `t..=c` and deletes all their records, ending with
`0..=t-1` recorded instead of the claimed `0..=t`. -/

/-- **C5 (code bug)**: from `Migrations = {0,1,2}` (current id 2),
`migrate_to(1)` runs the down scripts of *both* 2 and 1 and deletes both
records, leaving only `{0}` — not the claimed result of running only
migration 2's down script and leaving `{0,1}`. -/
theorem migrate_to_down_overshoot :
    migrate_to [0, 1, 2] 1 = .ok ([0], [(2, false), (1, false)]) ∧
    migrate_to [0, 1, 2] 1 ≠ .ok ([0, 1], [(2, false)]) := by
  constructor
  · rfl
  · intro h
    rw [show migrate_to [0, 1, 2] 1 = .ok ([0], [(2, false), (1, false)]) from rfl] at h
    simp at h

/-! ### Theorems for C6 -/

/-- **C6**: on a vehicle-state change notification, while the database
reference still upgrades, the snapshot logger appends to `VehicleSnapshots`
exactly one row whose `recorded_at` is the current time in seconds and
whose `vehicle_state` is the compact-binary serialization of the current
hub state; once the reference no longer upgrades, the logger exits. -/
theorem log_vehicle_state_appends (serialize : VehicleState → Option (List Nat))
    (upgradable : Bool) (now : Rat) (hub : VehicleState)
    (tbl : List VehicleSnapshotRow) (bytes : List Nat)
    (hser : serialize hub = some bytes) :
    (upgradable = true →
      log_vehicle_state_step serialize upgradable now hub tbl =
        some (tbl ++ [{ recorded_at := now, vehicle_state := bytes }])) ∧
    (upgradable = false →
      log_vehicle_state_step serialize upgradable now hub tbl = none) := by
  constructor
  · rintro rfl
    simp [log_vehicle_state_step, hser, insertVehicleSnapshot]
  · rintro rfl
    simp [log_vehicle_state_step]

/-- Witness for C6 at a concrete state, serializer and time. -/
theorem log_vehicle_state_appends_witness :
    log_vehicle_state_step (fun _ => some [1, 2, 3]) true 5
        { sensor_readings := [], valve_states := [], update_times := [] } [] =
      some [{ recorded_at := 5, vehicle_state := [1, 2, 3] }] ∧
    log_vehicle_state_step (fun _ => some [1, 2, 3]) false 5
        { sensor_readings := [], valve_states := [], update_times := [] } [] =
      none :=
  ⟨(log_vehicle_state_appends (fun _ => some [1, 2, 3]) true 5 _ [] [1, 2, 3]
      rfl).1 rfl,
    (log_vehicle_state_appends (fun _ => some [1, 2, 3]) false 5 _ [] [1, 2, 3]
      rfl).2 rfl⟩

/-! ### Theorems for C9 -/

/-- **C9 (code bug)**: deleting the stored sequence named `"abc"` fails —
the handler's DELETE filters on the nonexistent column `text_id`, so the
statement errors and the table is unchanged (status `BadRequest`) — whereas
the same DELETE keyed by `name`, as the claim describes, would remove
exactly that row. -/
theorem delete_sequence_wrong_column :
    delete_sequence [⟨"abc", none, "x = 1"⟩] "abc" =
      ([⟨"abc", none, "x = 1"⟩], HttpStatus.badRequest) ∧
    deleteSequencesWhere [⟨"abc", none, "x = 1"⟩] "name" "abc" = .ok [] := by
  constructor <;> rfl

/-! ## C3 — telemetry receive loop (`src/server/flight.rs`,
`receive_vehicle_state`)

The loop receives UDP datagrams into a growable buffer.  Per iteration:
a zero-length datagram breaks the loop; a datagram filling the whole buffer
doubles the buffer and continues (it is never deserialized); otherwise the
received bytes are deserialized — on success the hub state is replaced
under the writer lock and waiters are notified, on failure the loop logs
and continues.  A receive error with errno 10040 doubles the buffer and
continues; any other receive error breaks the loop.  After the loop, the
shared flight slot is set to `None` and its waiters are notified. -/

/-- One event on the telemetry socket: a received datagram's bytes, or a
receive error with its optional OS errno. -/
inductive RecvEvent
  | datagram (data : List Nat)
  | recvError (osError : Option Int)
  deriving DecidableEq, Repr

/-- Loop-carried state of the telemetry receiver: buffer size and the hub's
vehicle state. -/
structure TelemetryLoopState where
  bufLen : Nat
  hub : VehicleState
  deriving DecidableEq, Repr

/-- Outcome of one loop iteration: continue with new state (recording
whether hub waiters were notified), or leave the loop. -/
inductive TelemetryStep
  | running (next : TelemetryLoopState) (notified : Bool)
  | exited
  deriving DecidableEq, Repr

/-- One iteration of `receive_vehicle_state`'s loop.  `parse` abstracts
`postcard::from_bytes::<VehicleState>`; `recv_from` delivers at most
`bufLen` bytes, so the received slice is `data.take bufLen`. -/
def receive_vehicle_state_step (parse : List Nat → Option VehicleState)
    (s : TelemetryLoopState) (e : RecvEvent) : TelemetryStep :=
  match e with
  | .datagram data =>
    let received := data.take s.bufLen
    if received.length = 0 then .exited
    else if received.length = s.bufLen then
      .running { s with bufLen := s.bufLen * 2 } false
    else
      match parse received with
      | some state => .running { s with hub := state } true
      | none => .running s false
  | .recvError code =>
    if code = some 10040 then .running { s with bufLen := s.bufLen * 2 } false
    else .exited

/-- `receive_vehicle_state` as a whole, over a list of socket events: the
loop folds `receive_vehicle_state_step` until an iteration exits; on exit
the shared flight slot is cleared and its waiters notified.  Returns the
slot contents, whether the slot's notifier fired, and the final loop
state. -/
def receive_vehicle_state_run (parse : List Nat → Option VehicleState)
    (slot : Option FlightSession) (s : TelemetryLoopState) :
    List RecvEvent → Option FlightSession × Bool × TelemetryLoopState
  | [] => (slot, false, s)
  | e :: rest =>
    match receive_vehicle_state_step parse s e with
    | .running s2 _ => receive_vehicle_state_run parse slot s2 rest
    | .exited => (none, true, s)

/-! ### Theorems for C3 -/

/-- **C3**: for every datagram the telemetry loop deserializes (its length
is positive and below the buffer size), success replaces the hub state and
notifies waiters, and failure leaves the hub unchanged and continues; a
zero-length datagram exits the loop; and whenever an iteration exits the
loop, the flight slot is set to `None` and slot waiters are notified. -/
theorem receive_vehicle_state_cases (parse : List Nat → Option VehicleState)
    (s : TelemetryLoopState) (data : List Nat) :
    (∀ v, 0 < (data.take s.bufLen).length →
      (data.take s.bufLen).length ≠ s.bufLen →
      parse (data.take s.bufLen) = some v →
      receive_vehicle_state_step parse s (.datagram data) =
        .running { s with hub := v } true) ∧
    (0 < (data.take s.bufLen).length →
      (data.take s.bufLen).length ≠ s.bufLen →
      parse (data.take s.bufLen) = none →
      receive_vehicle_state_step parse s (.datagram data) = .running s false) ∧
    (data = [] →
      receive_vehicle_state_step parse s (.datagram data) = .exited) ∧
    (∀ (slot : Option FlightSession) (e : RecvEvent) (rest : List RecvEvent),
      receive_vehicle_state_step parse s e = .exited →
      receive_vehicle_state_run parse slot s (e :: rest) = (none, true, s)) := by
  refine ⟨?_, ?_, ?_, ?_⟩
  · intro v hpos hne hparse
    simp only [receive_vehicle_state_step]
    rw [if_neg (Nat.pos_iff_ne_zero.1 hpos), if_neg hne, hparse]
  · intro hpos hne hparse
    simp only [receive_vehicle_state_step]
    rw [if_neg (Nat.pos_iff_ne_zero.1 hpos), if_neg hne, hparse]
  · intro h
    subst h
    simp [receive_vehicle_state_step]
  · intro slot e rest hexit
    simp [receive_vehicle_state_run, hexit]

/-- Witness for C3: with a buffer of 8 bytes and a parser recognizing
`[42]`, the datagram `[42]` installs the parsed state and notifies; the
datagram `[7]` fails to parse and leaves the hub unchanged; the empty
datagram exits the loop, after which the slot is cleared and notified. -/
theorem receive_vehicle_state_cases_witness :
    receive_vehicle_state_step
        (fun l => if l = [42] then some fuelPtState else none)
        ⟨8, ⟨[], [], []⟩⟩ (.datagram [42]) =
      .running ⟨8, fuelPtState⟩ true ∧
    receive_vehicle_state_step
        (fun l => if l = [42] then some fuelPtState else none)
        ⟨8, ⟨[], [], []⟩⟩ (.datagram [7]) =
      .running ⟨8, ⟨[], [], []⟩⟩ false ∧
    receive_vehicle_state_run
        (fun l => if l = [42] then some fuelPtState else none)
        (some ⟨⟨0, false⟩, true⟩) ⟨8, ⟨[], [], []⟩⟩ [.datagram []] =
      (none, true, ⟨8, ⟨[], [], []⟩⟩) :=
  ⟨(receive_vehicle_state_cases _ ⟨8, ⟨[], [], []⟩⟩ [42]).1 fuelPtState
      (by decide) (by decide) (by decide),
    (receive_vehicle_state_cases _ ⟨8, ⟨[], [], []⟩⟩ [7]).2.1
      (by decide) (by decide) (by decide),
    (receive_vehicle_state_cases _ ⟨8, ⟨[], [], []⟩⟩ []).2.2.2
      (some ⟨⟨0, false⟩, true⟩) (.datagram []) []
      ((receive_vehicle_state_cases _ ⟨8, ⟨[], [], []⟩⟩ []).2.2.1 rfl)⟩

/-! ## CSV export (`src/server/routes/data.rs`, `export`)

The CSV branch collects the union of sensor names and of valve names across
the selected snapshots (a `HashSet` fed in iteration order; modelled as
first-occurrence deduplication), builds the header by folding
`h ++ "," ++ name` from `"timestamp"`, then appends one row per snapshot:
the timestamp's rendering followed by one cell per column — the rendered
reading/valve state if present, empty otherwise — each preceded by a comma,
and a terminating newline.  Rendering of timestamps, measurements and valve
states (`to_string()` of the `common` crate's `Display` impls) is abstract
in the model. -/

/-- Concatenation of a list of strings. -/
def strConcat : List String → String
  | [] => ""
  | x :: xs => x ++ strConcat xs

/-- Insert each of `names` at the end of `acc` unless already present
(the `HashSet` fill loop of the CSV branch, in iteration order). -/
def dedupAppend (acc names : List String) : List String :=
  names.foldl (fun a n => if a.contains n then a else a ++ [n]) acc

/-- The union of sensor names observed across the snapshots. -/
def sensorNames (states : List (Rat × VehicleState)) : List String :=
  states.foldl (fun acc p => dedupAppend acc (p.2.sensor_readings.map Prod.fst)) []

/-- The union of valve names observed across the snapshots. -/
def valveNames (states : List (Rat × VehicleState)) : List String :=
  states.foldl (fun acc p => dedupAppend acc (p.2.valve_states.map Prod.fst)) []

/-- The cell for sensor column `n` of a snapshot: the rendered reading, or
empty when the snapshot has no reading for `n`. -/
def csvCellSensor (renderM : Measurement → String) (st : VehicleState)
    (n : String) : String :=
  match st.sensor_readings.lookup n with
  | some m => renderM m
  | none => ""

/-- The cell for valve column `n` of a snapshot: the rendered valve state,
or empty when the snapshot has no state for `n`. -/
def csvCellValve (renderV : CompositeValveState → String) (st : VehicleState)
    (n : String) : String :=
  match st.valve_states.lookup n with
  | some v => renderV v
  | none => ""

/-- The CSV header: `"timestamp"` followed by `,name` per column. -/
def csvHeader (cols : List String) : String :=
  cols.foldl (fun h n => h ++ "," ++ n) "timestamp"

/-- One CSV data row: the timestamp, then a comma-prefixed cell per sensor
column then per valve column. -/
def csvRow (renderT : Rat → String) (renderM : Measurement → String)
    (renderV : CompositeValveState → String) (sensors valves : List String)
    (p : Rat × VehicleState) : String :=
  valves.foldl (fun c n => c ++ "," ++ csvCellValve renderV p.2 n)
    (sensors.foldl (fun c n => c ++ "," ++ csvCellSensor renderM p.2 n)
      (renderT p.1))

/-- The full CSV body built by the `"csv"` branch of `export`: the header
line, then one line per snapshot. -/
def csvContent (renderT : Rat → String) (renderM : Measurement → String)
    (renderV : CompositeValveState → String)
    (states : List (Rat × VehicleState)) : String :=
  states.foldl
    (fun content p =>
      content ++
        csvRow renderT renderM renderV (sensorNames states) (valveNames states)
          p ++ "\n")
    (csvHeader (sensorNames states ++ valveNames states) ++ "\n")

/-! ### String lemmas relating the source's accumulating folds to
comma/newline-separated line lists. -/

theorem strConcat_append (l1 l2 : List String) :
    strConcat (l1 ++ l2) = strConcat l1 ++ strConcat l2 := by
  induction l1 with
  | nil => simp [strConcat, String.empty_append]
  | cons x xs ih => simp [strConcat, ih, String.append_assoc]

theorem intercalate_go_eq (s : String) (l : List String) : ∀ a : String,
    String.intercalate.go a s l = a ++ strConcat (l.map fun x => s ++ x) := by
  induction l with
  | nil =>
    intro a
    rw [show String.intercalate.go a s [] = a from rfl]
    simp [strConcat, String.append_empty]
  | cons b bs ih =>
    intro a
    rw [show String.intercalate.go a s (b :: bs) =
        String.intercalate.go (a ++ s ++ b) s bs from rfl, ih]
    simp [strConcat, String.append_assoc]

theorem intercalate_cons_eq (s a : String) (l : List String) :
    String.intercalate s (a :: l) = a ++ strConcat (l.map fun x => s ++ x) := by
  rw [show String.intercalate s (a :: l) = String.intercalate.go a s l from rfl,
    intercalate_go_eq]

theorem foldl_comma_eq {α : Type} (g : α → String) (l : List α) : ∀ a : String,
    l.foldl (fun c x => c ++ "," ++ g x) a =
      a ++ strConcat (l.map fun x => "," ++ g x) := by
  induction l with
  | nil => intro a; simp [strConcat, String.append_empty]
  | cons x xs ih =>
    intro a
    rw [List.foldl_cons, ih]
    simp [strConcat, String.append_assoc]

theorem foldl_line_eq {α : Type} (g : α → String) (l : List α) : ∀ a : String,
    l.foldl (fun c x => c ++ g x ++ "\n") a =
      a ++ strConcat (l.map fun x => g x ++ "\n") := by
  induction l with
  | nil => intro a; simp [strConcat, String.append_empty]
  | cons x xs ih =>
    intro a
    rw [List.foldl_cons, ih]
    simp [strConcat, String.append_assoc]

theorem strConcat_shift (s : String) (l : List String) :
    s ++ strConcat (l.map fun x => x ++ s) =
      strConcat (l.map fun x => s ++ x) ++ s := by
  induction l with
  | nil => simp [strConcat, String.append_empty, String.empty_append]
  | cons x xs ih =>
    simp only [List.map_cons, strConcat]
    rw [← String.append_assoc s (x ++ s), ← String.append_assoc s x,
      String.append_assoc (s ++ x) s, ih,
      ← String.append_assoc (s ++ x), String.append_assoc]

theorem mem_dedupAppend (n : String) (names : List String) : ∀ acc,
    n ∈ dedupAppend acc names ↔ n ∈ acc ∨ n ∈ names := by
  induction names with
  | nil => intro acc; simp [dedupAppend]
  | cons x xs ih =>
    intro acc
    rw [show dedupAppend acc (x :: xs) =
        dedupAppend (if acc.contains x then acc else acc ++ [x]) xs from rfl,
      ih]
    by_cases h : acc.contains x = true
    · have hx : x ∈ acc := by simpa using h
      rw [if_pos h]
      simp only [List.mem_cons]
      constructor
      · rintro (ha | hxs)
        · exact Or.inl ha
        · exact Or.inr (Or.inr hxs)
      · rintro (ha | rfl | hxs)
        · exact Or.inl ha
        · exact Or.inl hx
        · exact Or.inr hxs
    · rw [if_neg h]
      simp only [List.mem_append, List.mem_singleton, List.mem_cons]
      tauto

theorem mem_foldl_dedup (proj : Rat × VehicleState → List String) (n : String)
    (l : List (Rat × VehicleState)) : ∀ acc,
    n ∈ l.foldl (fun a x => dedupAppend a (proj x)) acc ↔
      n ∈ acc ∨ ∃ x ∈ l, n ∈ proj x := by
  induction l with
  | nil => intro acc; simp
  | cons x xs ih =>
    intro acc
    rw [List.foldl_cons, ih, mem_dedupAppend]
    simp only [List.mem_cons]
    constructor
    · rintro ((ha | hx) | ⟨y, hy, hn⟩)
      · exact Or.inl ha
      · exact Or.inr ⟨x, Or.inl rfl, hx⟩
      · exact Or.inr ⟨y, Or.inr hy, hn⟩
    · rintro (ha | ⟨y, (rfl | hy), hn⟩)
      · exact Or.inl (Or.inl ha)
      · exact Or.inl (Or.inr hn)
      · exact Or.inr ⟨y, hy, hn⟩

theorem lines_block_eq {α : Type} (F : α → String) (l : List α) : ∀ H : String,
    (H ++ "\n") ++ strConcat (l.map fun x => F x ++ "\n") =
      (H ++ strConcat (l.map fun x => "\n" ++ F x)) ++ "\n" := by
  induction l with
  | nil =>
    intro H
    simp [strConcat, String.append_empty]
  | cons x xs ih =>
    intro H
    simp only [List.map_cons, strConcat]
    simp only [← String.append_assoc]
    exact ih ((H ++ "\n") ++ F x)

/-! ### Theorems for C7 -/

/-- **C7**: the CSV export body is exactly `1 + N` newline-terminated
lines: the header line is `timestamp` followed by the union of the sensor
names observed across the snapshots and then the union of the valve names;
each snapshot contributes one row whose first cell renders its timestamp
and whose cell for column `c` renders that snapshot's reading (resp. valve
state) for `c`, or is empty when `c` is absent from the snapshot. -/
theorem csv_export_body (renderT : Rat → String) (renderM : Measurement → String)
    (renderV : CompositeValveState → String)
    (states : List (Rat × VehicleState)) :
    csvContent renderT renderM renderV states =
      String.intercalate "\n"
        (String.intercalate ","
            ("timestamp" :: (sensorNames states ++ valveNames states)) ::
          states.map fun p =>
            String.intercalate ","
              (renderT p.1 ::
                ((sensorNames states).map (csvCellSensor renderM p.2) ++
                  (valveNames states).map (csvCellValve renderV p.2)))) ++
        "\n" ∧
    (String.intercalate ","
          ("timestamp" :: (sensorNames states ++ valveNames states)) ::
        states.map fun p =>
          String.intercalate ","
            (renderT p.1 ::
              ((sensorNames states).map (csvCellSensor renderM p.2) ++
                (valveNames states).map (csvCellValve renderV p.2)))).length =
      1 + states.length ∧
    (∀ st n, csvCellSensor renderM st n =
      ((st.sensor_readings.lookup n).map renderM).getD "") ∧
    (∀ st n, csvCellValve renderV st n =
      ((st.valve_states.lookup n).map renderV).getD "") ∧
    (∀ n, n ∈ sensorNames states ↔
      ∃ p ∈ states, n ∈ p.2.sensor_readings.map Prod.fst) ∧
    (∀ n, n ∈ valveNames states ↔
      ∃ p ∈ states, n ∈ p.2.valve_states.map Prod.fst) := by
  have hheader : csvHeader (sensorNames states ++ valveNames states) =
      String.intercalate ","
        ("timestamp" :: (sensorNames states ++ valveNames states)) := by
    rw [intercalate_cons_eq]
    unfold csvHeader
    rw [foldl_comma_eq (fun n => n)]
  have hrow : ∀ p : Rat × VehicleState,
      csvRow renderT renderM renderV (sensorNames states) (valveNames states)
          p =
        String.intercalate ","
          (renderT p.1 ::
            ((sensorNames states).map (csvCellSensor renderM p.2) ++
              (valveNames states).map (csvCellValve renderV p.2))) := by
    intro p
    rw [intercalate_cons_eq]
    unfold csvRow
    rw [foldl_comma_eq (csvCellSensor renderM p.2),
      foldl_comma_eq (csvCellValve renderV p.2)]
    rw [List.map_append, strConcat_append, List.map_map, List.map_map,
      String.append_assoc]
    simp only [Function.comp_def]
  refine ⟨?_, by simp [Nat.add_comm], ?_, ?_, ?_, ?_⟩
  · unfold csvContent
    rw [foldl_line_eq, lines_block_eq, intercalate_cons_eq, List.map_map,
      hheader]
    congr 1
    congr 1
    simp only [Function.comp_def, hrow]
  · intro st n
    unfold csvCellSensor
    cases st.sensor_readings.lookup n <;> rfl
  · intro st n
    unfold csvCellValve
    cases st.valve_states.lookup n <;> rfl
  · intro n
    unfold sensorNames
    rw [mem_foldl_dedup]
    simp
  · intro n
    unfold valveNames
    rw [mem_foldl_dedup]
    simp

/-! ## C4 — export persistence (`src/server/routes/data.rs`, `export`)

After generating the CSV body, the handler executes

  `INSERT INTO VehicleSnapshots (from_time, to_time, format, contents)
   VALUES (?1, ?2, ?3, ?4)`

— naming `VehicleSnapshots`, not `ExportRecords`.  The schemas come from
the migration files (not under `src/`); per the spec,
`VehicleSnapshots(recorded_at, vehicle_state)` has none of the four named
columns, so the statement is rejected and the handler returns an internal
error instead of the CSV. -/

/-- Body of `/data/export` requests (`from`/`to` are Lean keywords, hence
`fromTime`/`toTime`). -/
structure ExportRequest where
  format : String
  fromTime : Rat
  toTime : Rat
  deriving DecidableEq, Repr

/-- Modelled from the spec: columns of `VehicleSnapshots` — the schema is
in the migration SQL files, which are not under `src/`; per spec §6 the
table is `VehicleSnapshots(recorded_at, vehicle_state BLOB)`. -/
def vehicleSnapshotsColumns : List String := ["recorded_at", "vehicle_state"]

/-- Modelled from the spec: columns of `ExportRecords`, per spec §6
`ExportRecords(from_time, to_time, format, contents)` (migration SQL not
under `src/`). -/
def exportRecordsColumns : List String :=
  ["from_time", "to_time", "format", "contents"]

/-- The schema's column list per table name. -/
def tableColumns : String → Option (List String)
  | "VehicleSnapshots" => some vehicleSnapshotsColumns
  | "ExportRecords" => some exportRecordsColumns
  | _ => none

/-- Whether SQLite accepts an INSERT naming columns `cols` on `table`:
the table must exist and every named column must be in its schema. -/
def insertColumnsOk (table : String) (cols : List String) : Bool :=
  match tableColumns table with
  | some tcols => cols.all fun c => tcols.contains c
  | none => false

/-- The table named by the CSV branch's INSERT, as written in the source. -/
def exportInsertTable : String := "VehicleSnapshots"

/-- The column list of the CSV branch's INSERT, as written in the source. -/
def exportInsertColumns : List String :=
  ["from_time", "to_time", "format", "contents"]

/-- The `export` route handler: selects the snapshots with
`recorded_at ∈ [from, to]`, deserializes each blob (any failure is an
internal error), and for format `"csv"` builds the body, runs the INSERT
above (a SQL error becomes an internal error), and returns the body with
MIME `text/csv`; any other format is a bad request. -/
def exportHandler (renderT : Rat → String) (renderM : Measurement → String)
    (renderV : CompositeValveState → String)
    (snapshots : List VehicleSnapshotRow)
    (deserialize : List Nat → Option VehicleState) (req : ExportRequest) :
    Except (HttpStatus × String) (String × String) :=
  let rows := snapshots.filter fun r =>
    decide (req.fromTime ≤ r.recorded_at ∧ r.recorded_at ≤ req.toTime)
  match rows.mapM
      (fun r => (deserialize r.vehicle_state).map fun st =>
        (r.recorded_at, st)) with
  | none => .error (.internalServerError, "failed to deserialize vehicle state")
  | some states =>
    if req.format = "csv" then
      if insertColumnsOk exportInsertTable exportInsertColumns then
        .ok ("text/csv; charset=utf-8", csvContent renderT renderM renderV states)
      else .error (.internalServerError, "sql error")
    else .error (.badRequest, "invalid export format")

/-! ### Theorems for C4 -/

/-- **C4 (code bug)**: the CSV branch persists into `VehicleSnapshots`, not
`ExportRecords`: the INSERT's column list is not part of the
`VehicleSnapshots` schema (it is exactly the `ExportRecords` schema), so a
successful CSV export is impossible — the concrete request
`{format: "csv", from: 0, to: 10}` returns an internal error rather than
adding a row to `ExportRecords` and returning the body as `text/csv`. -/
theorem export_csv_wrong_table :
    exportInsertTable ≠ "ExportRecords" ∧
    insertColumnsOk exportInsertTable exportInsertColumns = false ∧
    insertColumnsOk "ExportRecords" exportInsertColumns = true ∧
    exportHandler (fun _ => "") (fun _ => "") (fun _ => "") []
        (fun _ => none) ⟨"csv", 0, 10⟩ =
      .error (.internalServerError, "sql error") := by
  refine ⟨by decide, by decide, by decide, rfl⟩

end Servo
